import Mathlib

/-!
Shallow embedding of the search-and-cache core of the GitHub User Explorer
application (src/App.tsx) together with a timed model of its debounce hook,
and proofs of the specified properties.
-/

namespace GitHubUserExplorer

/-- Data model: a search result user (type User in App.tsx). -/
structure User where
  login : String
deriving DecidableEq, Repr

/-- Data model: a repository (type Repo in App.tsx); description may be null. -/
structure Repo where
  id : Nat
  name : String
  description : Option String
  stargazers_count : Nat
  html_url : String
deriving DecidableEq, Repr

/-- Payload of a successful GET search/users response: fields may be absent
(items falls back to the empty list, total_count to 0). -/
structure SearchResponse where
  items : Option (List User)
  total_count : Option Nat
deriving Repr

/-- Lookup in the reposMap record, modelled as an association list keyed by
login; first binding wins, matching record-field lookup. -/
def mapLookup (m : List (String × List Repo)) (k : String) : Option (List Repo) :=
  match m with
  | [] => none
  | (k2, v) :: rest => if k2 = k then some v else mapLookup rest k

/-- Record update by spreading, as in setReposMap(prev => ({...prev, [login]: data})):
the binding for the key is replaced, all other keys keep their values. -/
def mapInsert (m : List (String × List Repo)) (k : String) (v : List Repo) :
    List (String × List Repo) :=
  (k, v) :: m

/-- The component state of App: each field is one useState hook.
searchTime is in milliseconds (performance.now modelled with Nat);
error is the empty string when no error is displayed. -/
structure AppState where
  username : String
  users : List User
  reposMap : List (String × List Repo)
  totalCount : Nat
  searchTime : Option Nat
  loadingUser : Bool
  loadingRepos : Option String
  error : String
deriving Repr

/-- The initial state: every useState default in App. -/
def initialState : AppState :=
  { username := ""
    users := []
    reposMap := []
    totalCount := 0
    searchTime := none
    loadingUser := false
    loadingRepos := none
    error := "" }

/-- Phase of searchUsers before the await: the empty-query guard has passed,
a start timestamp was recorded, and the prior users, reposMap, error and
searchTime are cleared while loadingUser is raised. -/
def searchUsersPre (query : String) (s : AppState) : AppState :=
  if query = "" then s
  else { s with loadingUser := true, error := "", users := [], reposMap := [],
                searchTime := none }

/-- Phase of searchUsers after the request settles: on success set users to
items (or []), totalCount to total_count (or 0) and searchTime to the elapsed
time; on failure set the fixed error message. The finally clause lowers
loadingUser in both cases. -/
def searchUsersSettle (start now : Nat) (result : Except Unit SearchResponse)
    (s : AppState) : AppState :=
  match result with
  | Except.ok r =>
      { s with users := r.items.getD [], totalCount := r.total_count.getD 0,
               searchTime := some (now - start), loadingUser := false }
  | Except.error _ =>
      { s with error := "Failed to fetch users.", loadingUser := false }

/-- One full run of searchUsers(query): the guard if (!query) return, then the
pre-request clearing, then the settled request. The Bool records whether a
network request was issued. -/
def searchUsersRun (query : String) (start now : Nat)
    (result : Except Unit SearchResponse) (s : AppState) : AppState × Bool :=
  if query = "" then (s, false)
  else (searchUsersSettle start now result (searchUsersPre query s), true)

/-- One full run of loadRepos(login): early return when the login is already a
key of reposMap, otherwise mark the login loading, settle the fetch (store the
list on success, set the repo error on failure) and clear the loading marker.
The Nat counts network fetches issued by this call (0 or 1). -/
def loadReposRun (login : String) (result : Except Unit (List Repo))
    (s : AppState) : AppState × Nat :=
  match mapLookup s.reposMap login with
  | some _ => (s, 0)
  | none =>
      let s1 := { s with loadingRepos := some login }
      let s2 :=
        match result with
        | Except.ok repos => { s1 with reposMap := mapInsert s1.reposMap login repos }
        | Except.error _ => { s1 with error := "Failed to fetch repositories." }
      ({ s2 with loadingRepos := none }, 1)

/-- clearSearch: reset username, users, reposMap and error (the focus call is
presentation only). totalCount, searchTime and the loading flags are untouched. -/
def clearSearch (s : AppState) : AppState :=
  { s with username := "", users := [], reposMap := [], error := "" }

/-- Whitespace trimming as in the source's String.prototype.trim(): drop
whitespace characters from both ends. -/
def jsTrim (s : String) : String :=
  String.mk (((s.data.dropWhile Char.isWhitespace).reverse.dropWhile
    Char.isWhitespace).reverse)

/-- The useEffect body run when the debounced username changes: an empty or
all-whitespace value clears the search without a request, otherwise
searchUsers(debouncedUsername) runs. The Bool records whether a request was
issued. -/
def debouncedEffect (debounced : String) (start now : Nat)
    (result : Except Unit SearchResponse) (s : AppState) : AppState × Bool :=
  if jsTrim debounced = "" then (clearSearch s, false)
  else searchUsersRun debounced start now result s

/-- Event of the interaction model: a change of the debounced username (which
runs the useEffect body) or a click that calls loadRepos for a login. Each
event carries the timing and settled outcome of the request it may issue. -/
inductive AppEvent where
  | debounce (value : String) (start now : Nat) (result : Except Unit SearchResponse)
  | load (login : String) (result : Except Unit (List Repo))

/-- One step of the interaction model: apply the handler the event triggers. -/
def stepEvent (s : AppState) : AppEvent → AppState
  | AppEvent.debounce v st n r => (debouncedEffect v st n r s).1
  | AppEvent.load l r => (loadReposRun l r s).1

/-- Run an event trace while tracking, for one login, whether a repository
fetch for that login was issued and completed successfully since the last
cache reset. Every debounce event resets the cache (empty input clears it,
a non-empty input issues a new search that clears it), so it resets the flag;
a load event sets the flag exactly when it actually fetches (the login is not
yet cached) and the fetch succeeds. -/
def runTraceFlag (login : String) : AppState → Bool → List AppEvent → AppState × Bool
  | s, flag, [] => (s, flag)
  | s, _, AppEvent.debounce v st n r :: rest =>
      runTraceFlag login (stepEvent s (AppEvent.debounce v st n r)) false rest
  | s, flag, AppEvent.load l r :: rest =>
      runTraceFlag login (stepEvent s (AppEvent.load l r))
        (if l = login && (mapLookup s.reposMap l).isNone && r.toBool then true
         else flag) rest

/-!
Timed model of the debounce hook. The hook's source file is not part of the
repository snapshot (only its test suite is), so the mechanism is modelled
from the spec.
-/

variable {α : Type}

/-- Modelled from the spec: the internal state of the missing useDebounce hook
source — the currently exposed value and the pending setTimeout, a deadline
paired with the value it would publish. -/
structure DebState (α : Type) where
  value : α
  pending : Option (Nat × α)

/-- Modelled from the spec: fire the pending timer if its deadline has been
reached by time t, publishing its value; otherwise leave the state unchanged. -/
def fireIfDue (t : Nat) (s : DebState α) : DebState α :=
  match s.pending with
  | some p => if p.1 ≤ t then { value := p.2, pending := none } else s
  | none => s

/-- Modelled from the spec: a new input value at time c.1 first lets a timer
already due by then fire, cancels any remaining pending emission, and starts a
fresh delay of d ms publishing the new value. -/
def applyChange (d : Nat) (s : DebState α) (c : Nat × α) : DebState α :=
  { value := (fireIfDue c.1 s).value, pending := some (c.1 + d, c.2) }

/-- Modelled from the spec: run the debouncer over a time-ordered list of
input changes, starting from the initial value with no pending timer. -/
def debounceRun (d : Nat) (init : α) (changes : List (Nat × α)) : DebState α :=
  changes.foldl (applyChange d) { value := init, pending := none }

/-- The changes that have occurred by time t. -/
def arrivedBy (t : Nat) (changes : List (Nat × α)) : List (Nat × α) :=
  changes.filter (fun c => c.1 ≤ t)

/-- The debounced output observed at time t: process the changes that occurred
by t, then let a timer due by t fire. -/
def debouncedAt (d : Nat) (init : α) (changes : List (Nat × α)) (t : Nat) : α :=
  (fireIfDue t (debounceRun d init (arrivedBy t changes))).value

/-- Declarative reading of the spec sentence: among the arrived changes, the
most recent one whose value remained unchanged for at least d ms — its
successor (if any) came no earlier than d ms later, and for the final change
at least d ms have elapsed by now. -/
def lastStableValue (d : Nat) : List (Nat × α) → Nat → Option α
  | [], _ => none
  | [c], t => if c.1 + d ≤ t then some c.2 else none
  | c :: c2 :: rest, t =>
      match lastStableValue d (c2 :: rest) t with
      | some v => some v
      | none => if c.1 + d ≤ c2.1 then some c.2 else none

/-- Spec-side debounced output at time t: the most recent stable arrived value,
or the initial value when no change has stabilised. -/
def specDebounced (d : Nat) (init : α) (changes : List (Nat × α)) (t : Nat) : α :=
  match lastStableValue d (arrivedBy t changes) t with
  | some v => v
  | none => init

/-- A timed sequence: change times strictly increase. -/
def timesSorted : List (Nat × α) → Bool
  | [] => true
  | [_] => true
  | a :: b :: rest => a.1 < b.1 && timesSorted (b :: rest)

/-- A state whose cache already holds a (possibly empty) list for login a. -/
def cachedState : AppState :=
  { initialState with reposMap := [("a", [])] }

/-- C1: loadRepos issues at most one fetch per login while the cache lives: a
cached login is served with no network call and an unchanged state, and two
sequential loader calls for a login that starts uncached (the first fetch
succeeding) issue exactly one network call in total. -/
theorem loadRepos_at_most_one_fetch (login : String) (s : AppState) :
    ((mapLookup s.reposMap login).isSome = true →
      ∀ r : Except Unit (List Repo), loadReposRun login r s = (s, 0)) ∧
    (mapLookup s.reposMap login = none →
      ∀ (repos : List Repo) (r2 : Except Unit (List Repo)),
        (loadReposRun login (Except.ok repos) s).2 +
          (loadReposRun login r2 (loadReposRun login (Except.ok repos) s).1).2 = 1) := by
  constructor
  · intro h r
    unfold loadReposRun
    cases hm : mapLookup s.reposMap login with
    | some v => rfl
    | none => rw [hm] at h; simp at h
  · intro h repos r2
    simp [loadReposRun, h, mapInsert, mapLookup]

/-- Witness for C1 at login a: the cached branch on a state caching a, and the
two-call count on the initial (empty-cache) state. -/
theorem loadRepos_at_most_one_fetch_witness :
    loadReposRun "a" (Except.error ()) cachedState = (cachedState, 0) ∧
    (loadReposRun "a" (Except.ok []) initialState).2 +
      (loadReposRun "a" (Except.error ())
        (loadReposRun "a" (Except.ok []) initialState).1).2 = 1 :=
  ⟨(loadRepos_at_most_one_fetch "a" cachedState).1 (by decide) (Except.error ()),
   (loadRepos_at_most_one_fetch "a" initialState).2 (by decide) [] (Except.error ())⟩

/-- C3: a successful search sets users to the response items (empty list when
the field is absent), totalCount to total_count (0 when absent), and
searchDurationMs to now minus the recorded start timestamp. -/
theorem searchUsers_success (query : String) (hq : query ≠ "") (start now : Nat)
    (resp : SearchResponse) (s : AppState) :
    (searchUsersRun query start now (Except.ok resp) s).1.users = resp.items.getD [] ∧
    (searchUsersRun query start now (Except.ok resp) s).1.totalCount
      = resp.total_count.getD 0 ∧
    (searchUsersRun query start now (Except.ok resp) s).1.searchTime
      = some (now - start) := by
  simp [searchUsersRun, hq, searchUsersSettle, searchUsersPre]

/-- Witness for C3: a concrete successful search for abc with one user,
total_count 42, started at 100 and settled at 600. -/
theorem searchUsers_success_witness :
    (searchUsersRun "abc" 100 600 (Except.ok ⟨some [⟨"u1"⟩], some 42⟩)
        initialState).1.users = [⟨"u1"⟩] ∧
    (searchUsersRun "abc" 100 600 (Except.ok ⟨some [⟨"u1"⟩], some 42⟩)
        initialState).1.totalCount = 42 ∧
    (searchUsersRun "abc" 100 600 (Except.ok ⟨some [⟨"u1"⟩], some 42⟩)
        initialState).1.searchTime = some 500 :=
  searchUsers_success "abc" (by decide) 100 600 ⟨some [⟨"u1"⟩], some 42⟩ initialState

/-- C5: a failed search sets the error to exactly the fixed message and leaves
the user list empty (the pre-request clearing emptied it and the failure path
does not repopulate it). -/
theorem searchUsers_failure (query : String) (hq : query ≠ "") (start now : Nat)
    (s : AppState) :
    (searchUsersRun query start now (Except.error ()) s).1.error
      = "Failed to fetch users." ∧
    (searchUsersRun query start now (Except.error ()) s).1.users = [] := by
  simp [searchUsersRun, hq, searchUsersSettle, searchUsersPre]

/-- Witness for C5: a concrete rejected search for abc. -/
theorem searchUsers_failure_witness :
    (searchUsersRun "abc" 100 600 (Except.error ()) initialState).1.error
      = "Failed to fetch users." ∧
    (searchUsersRun "abc" 100 600 (Except.error ()) initialState).1.users = [] :=
  searchUsers_failure "abc" (by decide) 100 600 initialState

/-- C6: for a non-empty query the pre-request phase clears the prior users,
repo cache, error and searchDurationMs, and the request is then issued (the
start timestamp is the recorded start the settle phase subtracts). -/
theorem searchUsers_clears_before_request (query : String) (hq : query ≠ "")
    (start now : Nat) (r : Except Unit SearchResponse) (s : AppState) :
    (searchUsersPre query s).users = [] ∧
    (searchUsersPre query s).reposMap = [] ∧
    (searchUsersPre query s).error = "" ∧
    (searchUsersPre query s).searchTime = none ∧
    (searchUsersRun query start now r s).2 = true := by
  simp [searchUsersPre, searchUsersRun, hq]

/-- Witness for C6: the concrete query abc on the initial state. -/
theorem searchUsers_clears_before_request_witness :
    (searchUsersPre "abc" initialState).users = [] ∧
    (searchUsersPre "abc" initialState).reposMap = [] ∧
    (searchUsersPre "abc" initialState).error = "" ∧
    (searchUsersPre "abc" initialState).searchTime = none ∧
    (searchUsersRun "abc" 100 600 (Except.error ()) initialState).2 = true :=
  searchUsers_clears_before_request "abc" (by decide) 100 600 (Except.error ())
    initialState

/-- C8: a failed repository fetch sets the fixed repository error and writes no
cache entry, so a later loadRepos call for the same login fetches again; and
for any outcome of an actually-issued request the loading marker is cleared
when it settles. -/
theorem loadRepos_failure_retry (login : String) (s : AppState)
    (h : mapLookup s.reposMap login = none) :
    (loadReposRun login (Except.error ()) s).1.error
      = "Failed to fetch repositories." ∧
    (loadReposRun login (Except.error ()) s).1.reposMap = s.reposMap ∧
    (∀ r2 : Except Unit (List Repo),
      (loadReposRun login r2 (loadReposRun login (Except.error ()) s).1).2 = 1) ∧
    (∀ r : Except Unit (List Repo), (loadReposRun login r s).1.loadingRepos = none) := by
  refine ⟨?_, ?_, ?_, ?_⟩
  · simp [loadReposRun, h]
  · simp [loadReposRun, h]
  · intro r2
    simp [loadReposRun, h]
  · intro r
    cases r <;> simp [loadReposRun, h]

/-- Witness for C8: a concrete failed fetch for login a on the initial state. -/
theorem loadRepos_failure_retry_witness :
    (loadReposRun "a" (Except.error ()) initialState).1.error
      = "Failed to fetch repositories." ∧
    (loadReposRun "a" (Except.error ()) initialState).1.reposMap
      = initialState.reposMap ∧
    (∀ r2 : Except Unit (List Repo),
      (loadReposRun "a" r2 (loadReposRun "a" (Except.error ()) initialState).1).2 = 1) ∧
    (∀ r : Except Unit (List Repo),
      (loadReposRun "a" r initialState).1.loadingRepos = none) :=
  loadRepos_failure_retry "a" initialState (by decide)

/-- C9: the loader's success path never touches the error field, so after a
failed repo fetch a later successful repo fetch (same or other login) leaves
the repository error in place; the shared error field is emptied only by the
pre-request clearing of a new search or by clearSearch. -/
theorem repoError_persists (l1 l2 : String) (repos : List Repo) (s : AppState)
    (h1 : mapLookup s.reposMap l1 = none) :
    (∀ (l : String) (rs : List Repo) (s2 : AppState),
        (loadReposRun l (Except.ok rs) s2).1.error = s2.error) ∧
    (loadReposRun l2 (Except.ok repos)
        (loadReposRun l1 (Except.error ()) s).1).1.error
      = "Failed to fetch repositories." ∧
    (∀ q : String, q ≠ "" → (searchUsersPre q s).error = "") ∧
    (clearSearch s).error = "" := by
  have hok : ∀ (l : String) (rs : List Repo) (s2 : AppState),
      (loadReposRun l (Except.ok rs) s2).1.error = s2.error := by
    intro l rs s2
    unfold loadReposRun
    cases mapLookup s2.reposMap l <;> simp
  refine ⟨hok, ?_, ?_, ?_⟩
  · rw [hok]
    simp [loadReposRun, h1]
  · intro q hq
    simp [searchUsersPre, hq]
  · simp [clearSearch]

/-- Witness for C9: a failure for a then a success for b on the initial state. -/
theorem repoError_persists_witness :
    (∀ (l : String) (rs : List Repo) (s2 : AppState),
        (loadReposRun l (Except.ok rs) s2).1.error = s2.error) ∧
    (loadReposRun "b" (Except.ok [])
        (loadReposRun "a" (Except.error ()) initialState).1).1.error
      = "Failed to fetch repositories." ∧
    (∀ q : String, q ≠ "" → (searchUsersPre q initialState).error = "") ∧
    (clearSearch initialState).error = "" :=
  repoError_persists "a" "b" [] initialState (by decide)

/-- C10: totalCount is untouched by the pre-request clearing, by a failed
search and by clearSearch, and starts at 0 in the initial state. -/
theorem totalCount_frame (query : String) (start now : Nat) (s : AppState) :
    (searchUsersPre query s).totalCount = s.totalCount ∧
    (searchUsersRun query start now (Except.error ()) s).1.totalCount
      = s.totalCount ∧
    (clearSearch s).totalCount = s.totalCount ∧
    initialState.totalCount = 0 := by
  refine ⟨?_, ?_, ?_, rfl⟩
  · by_cases hq : query = "" <;> simp [searchUsersPre, hq]
  · by_cases hq : query = "" <;>
      simp [searchUsersRun, hq, searchUsersSettle, searchUsersPre]
  · rfl

/-- A state carrying the timing of an earlier successful search. -/
def staleTimingState : AppState :=
  { initialState with searchTime := some 500 }

/-- C4 counterexample: when the debounced query becomes empty, the state does
not reset searchDurationMs — clearSearch never clears searchTime, so a prior
timing of 500ms survives the supposed reset to the initial state. -/
theorem emptyQuery_reset_cex :
    ¬ ((debouncedEffect "" 0 0 (Except.error ()) staleTimingState).1.searchTime
        = none) := by
  decide

/-- C4 amended: when the debounced query is empty or all-whitespace, no search
request is issued and username, users, the repo cache and the error are reset
to empty, while searchDurationMs and totalCount keep their previous values. -/
theorem emptyQuery_reset (debounced : String) (h : jsTrim debounced = "")
    (start now : Nat) (r : Except Unit SearchResponse) (s : AppState) :
    debouncedEffect debounced start now r s = (clearSearch s, false) ∧
    (clearSearch s).username = "" ∧
    (clearSearch s).users = [] ∧
    (clearSearch s).reposMap = [] ∧
    (clearSearch s).error = "" ∧
    (clearSearch s).searchTime = s.searchTime ∧
    (clearSearch s).totalCount = s.totalCount := by
  simp [debouncedEffect, h, clearSearch]

/-- Witness for C4 amended: a whitespace-only debounced value on the state
with stale timing. -/
theorem emptyQuery_reset_witness :
    debouncedEffect "  " 0 0 (Except.error ()) staleTimingState
      = (clearSearch staleTimingState, false) ∧
    (clearSearch staleTimingState).username = "" ∧
    (clearSearch staleTimingState).users = [] ∧
    (clearSearch staleTimingState).reposMap = [] ∧
    (clearSearch staleTimingState).error = "" ∧
    (clearSearch staleTimingState).searchTime = staleTimingState.searchTime ∧
    (clearSearch staleTimingState).totalCount = staleTimingState.totalCount :=
  emptyQuery_reset "  " (by decide) 0 0 (Except.error ()) staleTimingState

/-- Invariant preservation for the cache/fetch correspondence: if login's
cache presence currently agrees with the fetched-since-reset flag, it still
agrees after any event trace. -/
theorem runTraceFlag_invariant (login : String) (events : List AppEvent) :
    ∀ (s : AppState) (flag : Bool),
      (mapLookup s.reposMap login).isSome = flag →
      (mapLookup (runTraceFlag login s flag events).1.reposMap login).isSome
        = (runTraceFlag login s flag events).2 := by
  induction events with
  | nil =>
      intro s flag h
      simpa [runTraceFlag] using h
  | cons e rest ih =>
      intro s flag h
      cases e with
      | debounce v st n r =>
          simp only [runTraceFlag]
          apply ih
          by_cases hv : jsTrim v = ""
          · simp [stepEvent, debouncedEffect, hv, clearSearch, mapLookup]
          · have hv2 : v ≠ "" := by
              intro hq
              rw [hq] at hv
              exact hv (by decide)
            cases r with
            | ok resp =>
                simp [stepEvent, debouncedEffect, hv, searchUsersRun, hv2,
                  searchUsersSettle, searchUsersPre, mapLookup]
            | error u =>
                simp [stepEvent, debouncedEffect, hv, searchUsersRun, hv2,
                  searchUsersSettle, searchUsersPre, mapLookup]
      | load l r =>
          simp only [runTraceFlag]
          apply ih
          cases hm : mapLookup s.reposMap l with
          | some v =>
              simp [stepEvent, loadReposRun, hm, h]
          | none =>
              cases r with
              | ok repos =>
                  by_cases he : l = login
                  · subst he
                    simp [stepEvent, loadReposRun, hm, mapInsert, mapLookup,
                      Except.toBool]
                  · simp [stepEvent, loadReposRun, hm, mapInsert, mapLookup, he, h,
                      Except.toBool]
              | error u =>
                  simp [stepEvent, loadReposRun, hm, h, Except.toBool]

/-- C7: along every event trace from the initial state, a login is a key of
the repo cache exactly when a repository fetch for it was issued and completed
successfully since the last cache reset (every debounce event resets the
cache: an empty input clears it, a non-empty input issues a search that
clears it before the request). -/
theorem cache_key_iff_fetched (login : String) (events : List AppEvent) :
    (mapLookup (runTraceFlag login initialState false events).1.reposMap
        login).isSome
      = (runTraceFlag login initialState false events).2 :=
  runTraceFlag_invariant login events initialState false rfl

/-- Core of the debounce correspondence: from a state holding value v with a
pending timer for the change at tp publishing pv, processing the remaining
changes and firing at time t yields the most recent stable value of the
change list headed by (tp, pv), or v when none has stabilised. -/
theorem debounce_core (d t : Nat) (l : List (Nat × α)) :
    ∀ (tp : Nat) (pv v : α),
      (fireIfDue t (l.foldl (applyChange d) ⟨v, some (tp + d, pv)⟩)).value =
        match lastStableValue d ((tp, pv) :: l) t with
        | some w => w
        | none => v := by
  induction l with
  | nil =>
      intro tp pv v
      by_cases h : tp + d ≤ t <;> simp [lastStableValue, fireIfDue, h]
  | cons c l2 ih =>
      intro tp pv v
      obtain ⟨t2, v2⟩ := c
      have hstep : (((t2, v2) :: l2).foldl (applyChange d) ⟨v, some (tp + d, pv)⟩)
          = l2.foldl (applyChange d)
              ⟨(if tp + d ≤ t2 then pv else v), some (t2 + d, v2)⟩ := by
        by_cases h : tp + d ≤ t2 <;> simp [List.foldl, applyChange, fireIfDue, h]
      rw [hstep, ih t2 v2 _]
      cases hls : lastStableValue d ((t2, v2) :: l2) t with
      | some w => simp [lastStableValue, hls]
      | none => by_cases h : tp + d ≤ t2 <;> simp [lastStableValue, hls, h]

/-- C2: for every delay d and every strictly time-ordered sequence of input
changes, the debouncer's observable output at every time t equals the spec's
declarative value — the most recent input value that remained unchanged for at
least d ms (so no value superseded within the delay window is ever exposed),
and the initial value before any change stabilises. -/
theorem useDebounce_correct (d : Nat) (init : α) (changes : List (Nat × α))
    (_hs : timesSorted changes = true) (t : Nat) :
    debouncedAt d init changes t = specDebounced d init changes t := by
  unfold debouncedAt specDebounced debounceRun
  cases hl : arrivedBy t changes with
  | nil => simp [fireIfDue, lastStableValue]
  | cons c l2 =>
      obtain ⟨tc, vc⟩ := c
      have h1 : (((tc, vc) :: l2).foldl (applyChange d)
            { value := init, pending := none })
          = l2.foldl (applyChange d) ⟨init, some (tc + d, vc)⟩ := by
        simp [List.foldl, applyChange, fireIfDue]
      rw [h1, debounce_core d t l2 tc vc init]

/-- Witness for C2: the test scenario — first-update at t=0 superseded by
second-update at t=300 with d=500; observed at t=800 both sides give
second-update. -/
theorem useDebounce_correct_witness :
    timesSorted [(0, "first-update"), (300, "second-update")] = true ∧
    debouncedAt 500 "initial" [(0, "first-update"), (300, "second-update")] 800
      = specDebounced 500 "initial"
          [(0, "first-update"), (300, "second-update")] 800 :=
  ⟨by decide,
   useDebounce_correct 500 "initial" [(0, "first-update"), (300, "second-update")]
     (by decide) 800⟩

end GitHubUserExplorer
